import Mathlib

/-!
Verification development for the tuya_agent ingestion pipeline.

The definitions below are a shallow embedding of the Python sources:
  - src/tuya_agent/storage.py   (LogRecord, LogStorage.insert_logs, bookmarks)
  - src/tuya_agent/collector.py (LogCollector pagination, retry, run accounting)
  - src/tuya_agent/watcher.py   (event_to_record, EventWatcher._stream)
  - src/tuya_agent/events.py    (EventsMixin.subscribe decode loop)
  - src/tuya_agent/server.py    (EventBroadcaster fan-out / unsubscribe)

The SQLite store is modelled as the list of rows of the device_logs table in
insertion order; the UNIQUE(device_id, event_id, event_time) constraint is
enforced by the insert function exactly as INSERT OR IGNORE does.  Bookmarks
are modelled as the association list of rows of collection_bookmarks.
-/

set_option autoImplicit false

namespace TuyaAgent

/-- Row of the device_logs table / the LogRecord dataclass of storage.py.
The collected_at wall-clock column is omitted: it is not part of the
uniqueness tuple and no claim mentions it. -/
structure LogRecord where
  device_id : String
  event_id : Int
  event_time : Int
  event_from : String
  code : String
  value : String
  status : String
  raw_json : String
deriving DecidableEq, Repr

/-- Uniqueness tuple of the device_logs table: UNIQUE(device_id, event_id, event_time). -/
def recKey (r : LogRecord) : String × Int × Int :=
  (r.device_id, r.event_id, r.event_time)

/-- Keys currently present in the store. -/
def storedKeys (s : List LogRecord) : List (String × Int × Int) :=
  s.map recKey

/-- LogStorage.insert_logs: bulk INSERT OR IGNORE of the records in order,
returning the new store and the number of rows actually inserted
(sqlite rowcount counts only non-ignored rows).  A record whose uniqueness
tuple is already present (in the store or earlier in the same batch) is
skipped. -/
def insert_logs : List LogRecord → List LogRecord → List LogRecord × Nat
  | s, [] => (s, 0)
  | s, r :: rest =>
    if recKey r ∈ storedKeys s then
      insert_logs s rest
    else
      let out := insert_logs (s ++ [r]) rest
      (out.1, out.2 + 1)

/-- LogStorage.get_device_bookmark: lookup of last_event_time by device_id. -/
def get_device_bookmark : List (String × Int) → String → Option Int
  | [], _ => none
  | (d, v) :: rest, dev => if d = dev then some v else get_device_bookmark rest dev

/-- LogStorage.set_device_bookmark: upsert of (device_id, last_event_time),
with no monotonicity check (ON CONFLICT DO UPDATE overwrites). -/
def set_device_bookmark : List (String × Int) → String → Int → List (String × Int)
  | [], dev, t => [(dev, t)]
  | (d, v) :: rest, dev, t =>
    if d = dev then (dev, t) :: rest else (d, v) :: set_device_bookmark rest dev t

/-- Python max(r.event_time for r in records); only evaluated on non-empty
lists by the source (the empty case, where Python would raise, is given the
junk value 0). -/
def max_event_time : List LogRecord → Int
  | [] => 0
  | [r] => r.event_time
  | r :: rest => max r.event_time (max_event_time rest)

/-- JSON values, as handled by the json module used in watcher.py and
events.py. -/
inductive Json where
  | null
  | bool (b : Bool)
  | num (n : Int)
  | str (s : String)
  | arr (items : List Json)
  | obj (fields : List (String × Json))

/-- Lowercase hexadecimal digit. -/
def hexDigitChar (n : Nat) : Char :=
  if n < 10 then Char.ofNat (48 + n) else Char.ofNat (87 + n)

/-- Four hexadecimal digits, as in a JSON unicode escape. -/
def hex4 (n : Nat) : String :=
  String.mk [hexDigitChar (n / 4096 % 16), hexDigitChar (n / 256 % 16),
    hexDigitChar (n / 16 % 16), hexDigitChar (n % 16)]

/-- Modelled from the spec: string escaping of the external json module
(json.dumps with its default ensure_ascii), which is not part of this
repository.  Characters above the basic plane are rendered with a single
four-digit escape rather than a surrogate pair; no claim depends on that
corner. -/
def escapeJsonChar (c : Char) : String :=
  if c = Char.ofNat 34 then "\\\""
  else if c = Char.ofNat 92 then "\\\\"
  else if c = Char.ofNat 10 then "\\n"
  else if c = Char.ofNat 13 then "\\r"
  else if c = Char.ofNat 9 then "\\t"
  else if c = Char.ofNat 8 then "\\b"
  else if c = Char.ofNat 12 then "\\f"
  else if c.toNat < 32 ∨ c.toNat > 126 then "\\u" ++ hex4 c.toNat
  else String.singleton c

/-- Quoted JSON string literal. -/
def escapeJsonString (s : String) : String :=
  "\"" ++ String.join (s.toList.map escapeJsonChar) ++ "\""

/-- Comma-space separator used by json.dumps default separators. -/
def joinComma : List String → String
  | [] => ""
  | [x] => x
  | x :: rest => x ++ ", " ++ joinComma rest

/-- Insert one rendered field into a key-sorted list of rendered fields. -/
def insertByKey (kv : String × String) : List (String × String) → List (String × String)
  | [] => [kv]
  | p :: rest => if kv.1 < p.1 then kv :: p :: rest else p :: insertByKey kv rest

/-- Insertion sort by key, as json.dumps sort_keys orders object keys. -/
def sortByKey : List (String × String) → List (String × String)
  | [] => []
  | kv :: rest => insertByKey kv (sortByKey rest)

mutual

/-- Modelled from the spec: the external json.dumps (default separators;
sort_keys true for the canonicalized data of watcher.py).  Sorting is applied
to the rendered fields, which agrees with sorting the keys first since
rendering a field does not depend on its position. -/
def Json.dumps (sortKeys : Bool) : Json → String
  | .null => "null"
  | .bool b => if b then "true" else "false"
  | .num n => toString n
  | .str s => escapeJsonString s
  | .arr items => "[" ++ joinComma (Json.dumpsList sortKeys items) ++ "]"
  | .obj fields =>
      let rendered := Json.dumpsFields sortKeys fields
      let ordered := if sortKeys then sortByKey rendered else rendered
      "\x7b" ++ joinComma (ordered.map (fun kv => escapeJsonString kv.1 ++ ": " ++ kv.2)) ++ "\x7d"

/-- Render every element of a JSON array. -/
def Json.dumpsList (sortKeys : Bool) : List Json → List String
  | [] => []
  | x :: rest => Json.dumps sortKeys x :: Json.dumpsList sortKeys rest

/-- Render every field value of a JSON object, keeping the keys. -/
def Json.dumpsFields (sortKeys : Bool) : List (String × Json) → List (String × String)
  | [] => []
  | (k, v) :: rest => (k, Json.dumps sortKeys v) :: Json.dumpsFields sortKeys rest

end

/-- Decoded real-time event, the TuyaEvent dataclass of events.py. -/
structure TuyaEvent where
  event_type : String
  device_id : String
  product_id : String
  data : Json
  timestamp : Int
  raw : Json

/-- Identity payload string built by event_to_record in watcher.py:
device_id, timestamp, event_type and the sort_keys serialization of data,
joined with colons. -/
def id_payload (e : TuyaEvent) : String :=
  e.device_id ++ ":" ++ toString e.timestamp ++ ":"
    ++ e.event_type ++ ":" ++ Json.dumps true e.data

/-- watcher.py event_to_record.  Modelled from the spec for the hash: the
source derives event_id as int(sha256(payload).hexdigest()[:15], 16); SHA-256
is an external library primitive, so the truncated digest is modelled as an
arbitrary function H of the payload string.  Every property proved below
holds for every H, hence for the SHA-256 instance. -/
def event_to_record (H : String → Nat) (e : TuyaEvent) : LogRecord :=
  { device_id := e.device_id
    event_id := Int.ofNat (H (id_payload e))
    event_time := e.timestamp
    event_from := "ws"
    code := e.event_type
    value := Json.dumps true e.data
    status := "ws"
    raw_json := Json.dumps false e.raw }

/-- Storage-visible state of the event watcher. -/
structure WatcherState where
  store : List LogRecord
  bm : List (String × Int)
  count : Nat
deriving Repr

/-- One iteration of EventWatcher._stream for a decoded event: convert,
insert, and on a fresh insert bump the session counter and set the bookmark
of that device to the event timestamp (unconditionally, no comparison with
the stored bookmark). -/
def watcher_step (H : String → Nat) (st : WatcherState) (e : TuyaEvent) : WatcherState :=
  let record := event_to_record H e
  let out := insert_logs st.store [record]
  if out.2 ≠ 0 then
    { store := out.1
      bm := set_device_bookmark st.bm e.device_id e.timestamp
      count := st.count + 1 }
  else
    { store := out.1, bm := st.bm, count := st.count }

-- Collector model --------------------------------------------------------------

/-- A raw Tuya API log entry, the dict consumed by LogRecord.from_api;
a missing key is a none field.  Python reads the fields with entry.get and
its defaults. -/
structure ApiEntry where
  event_id : Option Int := none
  event_time : Option Int := none
  event_from : Option String := none
  code : Option String := none
  value : Option String := none
  status : Option String := none
deriving DecidableEq, Repr

/-- Rendering of the entry dict used for the raw_json column
(json.dumps(entry) in from_api); modelled as a fixed-order rendering of the
present fields.  No claim depends on its exact text, only on it being a
function of the entry. -/
def entryRender (e : ApiEntry) : String :=
  "\x7b" ++ joinComma (
    (match e.event_id with | some n => ["\"event_id\": " ++ toString n] | none => [])
    ++ (match e.event_time with | some n => ["\"event_time\": " ++ toString n] | none => [])
    ++ (match e.event_from with | some s => ["\"event_from\": " ++ escapeJsonString s] | none => [])
    ++ (match e.code with | some s => ["\"code\": " ++ escapeJsonString s] | none => [])
    ++ (match e.value with | some s => ["\"value\": " ++ escapeJsonString s] | none => [])
    ++ (match e.status with | some s => ["\"status\": " ++ escapeJsonString s] | none => [])) ++ "\x7d"

/-- LogRecord.from_api of storage.py: missing event_id and event_time default
to 0, missing string fields default to the empty string. -/
def LogRecord.from_api (device_id : String) (entry : ApiEntry) : LogRecord :=
  { device_id := device_id
    event_id := entry.event_id.getD 0
    event_time := entry.event_time.getD 0
    event_from := entry.event_from.getD ""
    code := entry.code.getD ""
    value := entry.value.getD ""
    status := entry.status.getD ""
    raw_json := entryRender entry }

/-- Response page of the device-log API as read by the collector. -/
structure LogsPage where
  logs : List ApiEntry
  has_next : Bool
  next_row_key : String
deriving DecidableEq, Repr

/-- Outcome of one call to client.logs.get_device_logs: either a page or a
raised TuyaAPIError with its code and message. -/
inductive FetchOutcome where
  | ok (page : LogsPage)
  | err (code : Int) (msg : String)
deriving DecidableEq, Repr

/-- collector.py constants. -/
def MAX_PAGES_PER_DEVICE : Nat := 100

/-- Retry ceiling of _fetch_logs_page. -/
def MAX_RETRIES : Nat := 3

/-- Distinguished Tuya rate-limit error code. -/
def RATE_LIMIT_CODE : Int := 40000309

/-- Result of _fetch_logs_page: the page (none when retries were exhausted)
or a re-raised non-rate-limit TuyaAPIError; the backoff delays slept, in
order; and the index of the next unconsumed source outcome. -/
structure FetchPageResult where
  result : Except (Int × String) (Option LogsPage)
  delays : List Nat
  next : Nat
deriving Repr

/-- Retry loop of _fetch_logs_page: for attempt in range(MAX_RETRIES), call
the source; a rate-limit error sleeps 10 * 2 ^ attempt seconds and retries;
any other TuyaAPIError is raised; falling off the loop returns None.  The
source is a script assigning an outcome to each call index. -/
def fetch_logs_page_from (src : Nat → FetchOutcome) :
    Nat → Nat → Nat → FetchPageResult
  | 0, _, i => ⟨.ok none, [], i⟩
  | remaining + 1, attempt, i =>
    match src i with
    | .ok page => ⟨.ok (some page), [], i + 1⟩
    | .err c m =>
      if c = RATE_LIMIT_CODE then
        let rest := fetch_logs_page_from src remaining (attempt + 1) (i + 1)
        ⟨rest.result, 10 * 2 ^ attempt :: rest.delays, rest.next⟩
      else ⟨.error (c, m), [], i + 1⟩

/-- One page fetch with retry, starting at source index i. -/
def fetch_logs_page (src : Nat → FetchOutcome) (i : Nat) : FetchPageResult :=
  fetch_logs_page_from src MAX_RETRIES 0 i

/-- Result of collect_device_logs: accumulated records, number of page
fetches performed, next source index, and the TuyaAPIError propagating out of
the pagination loop if one was raised. -/
structure CollectPagesResult where
  records : List LogRecord
  fetches : Nat
  next : Nat
  error : Option (Int × String)
deriving DecidableEq, Repr

/-- Pagination loop of collect_device_logs, with fuel equal to
MAX_PAGES_PER_DEVICE minus the page counter.  A None page (exhausted
retries) stops before decoding; entries of a fetched page are decoded before
the has_next and cursor checks; the loop stops on has_next false, an empty
next_row_key, or a next_row_key equal to prev_row_key, and otherwise shifts
prev_row_key := last_row_key, last_row_key := new key. -/
def collect_device_logs_aux (src : Nat → FetchOutcome) (device_id : String) :
    Nat → Option String → Option String → List LogRecord → Nat → Nat →
    CollectPagesResult
  | 0, _, _, acc, fetches, i => ⟨acc, fetches, i, none⟩
  | fuel + 1, last, prev, acc, fetches, i =>
    let f := fetch_logs_page src i
    match f.result with
    | .error e => ⟨acc, fetches + 1, f.next, some e⟩
    | .ok none => ⟨acc, fetches + 1, f.next, none⟩
    | .ok (some page) =>
      let acc2 := acc ++ page.logs.map (LogRecord.from_api device_id)
      if !page.has_next then ⟨acc2, fetches + 1, f.next, none⟩
      else
        let new := page.next_row_key
        if new = "" ∨ some new = prev then ⟨acc2, fetches + 1, f.next, none⟩
        else collect_device_logs_aux src device_id fuel (some new) last acc2 (fetches + 1) f.next

/-- collect_device_logs of collector.py, from source index i. -/
def collect_device_logs (src : Nat → FetchOutcome) (device_id : String) (i : Nat) :
    CollectPagesResult :=
  collect_device_logs_aux src device_id MAX_PAGES_PER_DEVICE none none [] 0 i

/-- Collector configuration, restricted to the field that shapes observable
behaviour in this model; the remaining fields (delays, page size, event
types) only parameterize the API calls. -/
structure CollectorConfig where
  lookback_days : Int := 7
deriving DecidableEq, Repr

/-- Run summary CollectionResult of collector.py (duration omitted: wall
clock). -/
structure CollectionResult where
  devices_found : Nat := 0
  devices_collected : Nat := 0
  devices_failed : Nat := 0
  logs_collected : Nat := 0
  errors : List String := []
deriving DecidableEq, Repr

/-- Observable outcome of _collect_one_device: updated store, bookmarks and
run summary, next source index, the exception propagating out of it if any,
and the computed window lower bound. -/
structure CollectOneResult where
  store : List LogRecord
  bm : List (String × Int)
  result : CollectionResult
  next : Nat
  raised : Option (Int × String)
  window_start : Int
deriving DecidableEq, Repr

/-- _collect_one_device of collector.py: window lower bound is bookmark minus
1000 ms, or now minus the lookback window without a bookmark; fetch all
pages; if any records were fetched, insert them, set the bookmark to the
maximum fetched event_time and add the inserted count to logs_collected;
devices_collected is incremented in all non-raising paths. -/
def collect_one_device (src : Nat → FetchOutcome) (cfg : CollectorConfig)
    (device_id : String) (now_ms : Int) (store : List LogRecord)
    (bm : List (String × Int)) (result : CollectionResult) (i : Nat) :
    CollectOneResult :=
  let bookmark := get_device_bookmark bm device_id
  let start_time := match bookmark with
    | some b => b - 1000
    | none => now_ms - cfg.lookback_days * 24 * 60 * 60 * 1000
  let pages := collect_device_logs src device_id i
  match pages.error with
  | some e => ⟨store, bm, result, pages.next, some e, start_time⟩
  | none =>
    let records := pages.records
    if records = [] then
      ⟨store, bm, { result with devices_collected := result.devices_collected + 1 },
        pages.next, none, start_time⟩
    else
      let out := insert_logs store records
      ⟨out.1, set_device_bookmark bm device_id (max_event_time records),
        { result with
            logs_collected := result.logs_collected + out.2
            devices_collected := result.devices_collected + 1 },
        pages.next, none, start_time⟩

/-- A discovered device together with the script of its log API source. -/
structure DeviceSpec where
  id : String
  name : String
  customName : Option String := none
  src : Nat → FetchOutcome

/-- Python device.get("customName") or device.get("name", ""): a missing or
empty customName falls back to name. -/
def device_display_name (d : DeviceSpec) : String :=
  match d.customName with
  | some s => if s = "" then d.name else s
  | none => d.name

/-- str(TuyaAPIError(code, msg)) as built in client.py. -/
def tuya_error_message (c : Int) (m : String) : String :=
  "Tuya API error " ++ toString c ++ ": " ++ m

/-- Device loop of collect_all: devices with an empty id are skipped; a
per-device exception increments devices_failed and appends a labeled error
string without touching store or bookmarks; the loop always continues with
the next device. -/
def collect_all_aux (cfg : CollectorConfig) (now_ms : Int) :
    List DeviceSpec → List LogRecord → List (String × Int) → CollectionResult →
    List LogRecord × List (String × Int) × CollectionResult
  | [], store, bm, result => (store, bm, result)
  | d :: rest, store, bm, result =>
    if d.id = "" then collect_all_aux cfg now_ms rest store bm result
    else
      let o := collect_one_device d.src cfg d.id now_ms store bm result 0
      match o.raised with
      | some (c, m) =>
        let msg := device_display_name d ++ " (" ++ d.id ++ "): " ++ tuya_error_message c m
        collect_all_aux cfg now_ms rest store bm
          { result with
              devices_failed := result.devices_failed + 1
              errors := result.errors ++ [msg] }
      | none => collect_all_aux cfg now_ms rest o.store o.bm o.result

/-- collect_all of collector.py, with discovery already done (the devices
list is given); devices_found is the length of the discovered list. -/
def collect_all (cfg : CollectorConfig) (now_ms : Int) (devices : List DeviceSpec)
    (store : List LogRecord) (bm : List (String × Int)) :
    List LogRecord × List (String × Int) × CollectionResult :=
  collect_all_aux cfg now_ms devices store bm { devices_found := devices.length }

-- Broadcaster model -------------------------------------------------------------

/-- Serialized event dict pushed to subscribers by EventBroadcaster._fan_out. -/
structure FanPayload where
  event_type : String
  device_id : String
  product_id : String
  data : Json
  timestamp : Int

/-- A subscriber queue of the broadcaster registry: asyncio queues compare by
identity, modelled by the qid token; items in arrival order; maxsize as set
at subscription. -/
structure SubQueue where
  qid : Nat
  items : List FanPayload
  maxsize : Nat

/-- Python list.remove wrapped in try/except ValueError: drop the first
element satisfying p, or return the list unchanged when none does. -/
def removeFirst {α : Type} (p : α → Bool) : List α → List α
  | [] => []
  | x :: xs => if p x then xs else x :: removeFirst p xs

/-- EventBroadcaster.unsubscribe: remove the queue from the registry,
silently doing nothing when it is not registered. -/
def unsubscribe (subs : List SubQueue) (q : Nat) : List SubQueue :=
  removeFirst (fun x => x.qid == q) subs

/-- EventBroadcaster.subscribe: register a fresh bounded queue (maxsize 256). -/
def subscribe (subs : List SubQueue) (qid : Nat) : List SubQueue :=
  subs ++ [⟨qid, [], 256⟩]

/-- Payload built by _fan_out from a decoded event. -/
def event_payload (e : TuyaEvent) : FanPayload :=
  ⟨e.event_type, e.device_id, e.product_id, e.data, e.timestamp⟩

/-- EventBroadcaster._fan_out: put_nowait the payload on every registered
queue; queues that are full (put_nowait raises QueueFull) are collected and
then unsubscribed, in registry order. -/
def fan_out (subs : List SubQueue) (e : TuyaEvent) : List SubQueue :=
  let payload := event_payload e
  let pushed := subs.map fun q =>
    if q.items.length < q.maxsize then { q with items := q.items ++ [payload] } else q
  let dead := subs.filter fun q => !(q.items.length < q.maxsize : Bool)
  dead.foldl (fun acc q => unsubscribe acc q.qid) pushed

-- Subscribe-loop model (events.py) ----------------------------------------------

/-- Classification of one raw Pulsar frame as seen by the subscribe loop of
events.py.  badJson: json.loads raises; nonDict: json.loads yields a value
with no .get attribute; dictRaises: the message is a dict but _decode_message
raises (for instance a payload decoding to a non-dict); dictMsg: the message
is a dict and _decode_message returns an event, or None for a missing or
undecodable payload field. -/
inductive RawMsg where
  | badJson
  | nonDict
  | dictRaises (messageId : String)
  | dictMsg (messageId : String) (event : Option TuyaEvent)

/-- Python exception escaping the subscribe loop. -/
inductive PyError where
  | nameError
  | attributeError
deriving DecidableEq, Repr

/-- What the local variable msg of the subscribe loop is bound to from
earlier iterations: nothing yet, a dict with its messageId, or a non-dict
value. -/
inductive BoundMsg where
  | dictB (messageId : String)
  | nonDictB
deriving DecidableEq, Repr

/-- Observable trace of the subscribe loop over a finite frame sequence:
acknowledgements sent (in order), events yielded, and the exception that
escaped the loop, if any (frames after it are never processed). -/
structure SubscribeResult where
  acks : List String
  events : List TuyaEvent
  crash : Option PyError

/-- The _ack helper sends nothing for an empty messageId. -/
def ack_list (mid : String) : List String :=
  if mid = "" then [] else [mid]

/-- Message loop of EventsMixin.subscribe (default arguments: no on_event
callback, no max_events), with the Python binding semantics of msg made
explicit: the except-handler acknowledges msg.get("messageId", ""), where msg
is whatever the last successful json.loads bound — unbound on a first-frame
parse failure (NameError), the previous frame on a later parse failure, and
a non-dict value when json.loads produced one (AttributeError from .get,
first inside _decode_message and again inside the handler). -/
def subscribe_loop : List RawMsg → Option BoundMsg → SubscribeResult
  | [], _ => ⟨[], [], none⟩
  | m :: rest, bound =>
    match m with
    | .badJson =>
      match bound with
      | none => ⟨[], [], some .nameError⟩
      | some .nonDictB => ⟨[], [], some .attributeError⟩
      | some (.dictB mid) =>
        let r := subscribe_loop rest (some (.dictB mid))
        ⟨ack_list mid ++ r.acks, r.events, r.crash⟩
    | .nonDict => ⟨[], [], some .attributeError⟩
    | .dictRaises mid =>
      let r := subscribe_loop rest (some (.dictB mid))
      ⟨ack_list mid ++ r.acks, r.events, r.crash⟩
    | .dictMsg mid ev =>
      let r := subscribe_loop rest (some (.dictB mid))
      ⟨ack_list mid ++ r.acks,
        (match ev with | some e => e :: r.events | none => r.events),
        r.crash⟩

-- Basic lemmas about the store ------------------------------------------------

theorem insert_logs_nil (s : List LogRecord) : insert_logs s [] = (s, 0) := rfl

theorem insert_logs_cons_dup {s : List LogRecord} {r : LogRecord}
    (h : recKey r ∈ storedKeys s) (rest : List LogRecord) :
    insert_logs s (r :: rest) = insert_logs s rest := by
  simp [insert_logs, h]

theorem insert_logs_cons_new {s : List LogRecord} {r : LogRecord}
    (h : recKey r ∉ storedKeys s) (rest : List LogRecord) :
    insert_logs s (r :: rest)
      = ((insert_logs (s ++ [r]) rest).1, (insert_logs (s ++ [r]) rest).2 + 1) := by
  simp [insert_logs, h]

/-- The count returned by insert_logs is exactly the growth of the store. -/
theorem insert_logs_length (rs : List LogRecord) :
    ∀ s : List LogRecord, (insert_logs s rs).1.length = s.length + (insert_logs s rs).2 := by
  induction rs with
  | nil => intro s; simp [insert_logs]
  | cons r rest ih =>
    intro s
    by_cases h : recKey r ∈ storedKeys s
    · rw [insert_logs_cons_dup h]; exact ih s
    · rw [insert_logs_cons_new h]
      have := ih (s ++ [r])
      simp only [List.length_append, List.length_singleton] at this
      dsimp only
      omega

/-- Inserting a record whose uniqueness tuple is already stored is a no-op. -/
theorem insert_logs_dup_noop {s : List LogRecord} {r : LogRecord}
    (h : recKey r ∈ storedKeys s) : insert_logs s [r] = (s, 0) := by
  rw [insert_logs_cons_dup h]; rfl

/-- The store built by insert_logs extends the original store. -/
theorem insert_logs_prefix (rs : List LogRecord) :
    ∀ s : List LogRecord, ∃ t, (insert_logs s rs).1 = s ++ t := by
  induction rs with
  | nil => intro s; exact ⟨[], by simp [insert_logs]⟩
  | cons r rest ih =>
    intro s
    by_cases h : recKey r ∈ storedKeys s
    · rw [insert_logs_cons_dup h]; exact ih s
    · rw [insert_logs_cons_new h]
      obtain ⟨t, ht⟩ := ih (s ++ [r])
      exact ⟨r :: t, by simpa using ht⟩

/-- Keys already present stay present across an insert. -/
theorem insert_logs_key_mono {s : List LogRecord} {k : String × Int × Int}
    (rs : List LogRecord) (h : k ∈ storedKeys s) :
    k ∈ storedKeys (insert_logs s rs).1 := by
  obtain ⟨t, ht⟩ := insert_logs_prefix rs s
  rw [ht]
  simp only [storedKeys, List.map_append, List.mem_append]
  exact Or.inl h

/-- On a batch whose records have pairwise distinct uniqueness tuples, the
returned count is the size of the subset that is not already stored. -/
theorem insert_logs_count_nodup (rs : List LogRecord) :
    ∀ s : List LogRecord, (rs.map recKey).Nodup →
      (insert_logs s rs).2
        = (rs.filter (fun r => decide (recKey r ∉ storedKeys s))).length := by
  induction rs with
  | nil => intro s _; simp [insert_logs]
  | cons r rest ih =>
    intro s hnd
    simp only [List.map_cons, List.nodup_cons] at hnd
    obtain ⟨hr, hrest⟩ := hnd
    by_cases h : recKey r ∈ storedKeys s
    · rw [insert_logs_cons_dup h]
      rw [ih s hrest]
      simp [List.filter_cons, h]
    · rw [insert_logs_cons_new h]
      have hfil : rest.filter (fun x => decide (recKey x ∉ storedKeys (s ++ [r])))
          = rest.filter (fun x => decide (recKey x ∉ storedKeys s)) := by
        apply List.filter_congr
        intro x hx
        have hxne : recKey x ≠ recKey r := by
          intro he
          exact hr (he ▸ List.mem_map_of_mem recKey hx)
        simp [storedKeys, List.map_append, hxne]
      rw [ih (s ++ [r]) hrest, hfil]
      simp [List.filter_cons, h]

/-- Insert preserves distinctness of the stored uniqueness tuples. -/
theorem insert_logs_keys_nodup (rs : List LogRecord) :
    ∀ s : List LogRecord, (storedKeys s).Nodup →
      (storedKeys (insert_logs s rs).1).Nodup := by
  induction rs with
  | nil => intro s h; simpa [insert_logs] using h
  | cons r rest ih =>
    intro s h
    by_cases hm : recKey r ∈ storedKeys s
    · rw [insert_logs_cons_dup hm]; exact ih s h
    · rw [insert_logs_cons_new hm]
      apply ih (s ++ [r])
      simp only [storedKeys, List.map_append, List.map_cons, List.map_nil]
      rw [List.nodup_append]
      refine ⟨h, List.nodup_singleton _, ?_⟩
      intro a ha hb
      simp only [List.mem_cons, List.not_mem_nil, or_false] at hb
      subst hb
      exact hm ha

/-- The uniqueness tuple of a record is always stored after inserting it. -/
theorem insert_logs_key_present (s : List LogRecord) (r : LogRecord) :
    recKey r ∈ storedKeys (insert_logs s [r]).1 := by
  by_cases h : recKey r ∈ storedKeys s
  · rw [insert_logs_dup_noop h]; exact h
  · rw [insert_logs_cons_new h]
    simp [insert_logs, storedKeys]

/-- Reading back a bookmark that was just set yields the written value. -/
theorem get_set_bookmark (bm : List (String × Int)) (dev : String) (t : Int) :
    get_device_bookmark (set_device_bookmark bm dev t) dev = some t := by
  induction bm with
  | nil => simp [set_device_bookmark, get_device_bookmark]
  | cons p rest ih =>
    by_cases h : p.1 = dev
    · simp [set_device_bookmark, get_device_bookmark, h]
    · simpa [set_device_bookmark, get_device_bookmark, h] using ih

-- Stepping lemmas for the fetch retry loop ------------------------------------

/-- A successful source call returns its page with no delay. -/
theorem fetch_ok {src : Nat → FetchOutcome} {i : Nat} {p : LogsPage}
    (h : src i = .ok p) :
    fetch_logs_page src i = ⟨.ok (some p), [], i + 1⟩ := by
  simp [fetch_logs_page, MAX_RETRIES, fetch_logs_page_from, h]

/-- Two rate-limit signals followed by a page: exactly two retries with the
doubling delays 10 and 20, then success. -/
theorem fetch_rl_rl_ok {src : Nat → FetchOutcome} {p : LogsPage} {m1 m2 : String}
    (h0 : src 0 = .err RATE_LIMIT_CODE m1) (h1 : src 1 = .err RATE_LIMIT_CODE m2)
    (h2 : src 2 = .ok p) :
    fetch_logs_page src 0 = ⟨.ok (some p), [10, 20], 3⟩ := by
  simp [fetch_logs_page, MAX_RETRIES, fetch_logs_page_from, h0, h1, h2]

/-- A source that rate-limits every call exhausts the retry ceiling: three
delays 10, 20, 40 and a None result (no exception). -/
theorem fetch_all_rl {src : Nat → FetchOutcome} {msgs : Nat → String}
    (h : ∀ i, src i = .err RATE_LIMIT_CODE (msgs i)) :
    fetch_logs_page src 0 = ⟨.ok none, [10, 20, 40], 3⟩ := by
  simp [fetch_logs_page, MAX_RETRIES, fetch_logs_page_from, h 0, h 1, h 2]

/-- A non-rate-limit TuyaAPIError is re-raised immediately. -/
theorem fetch_err {src : Nat → FetchOutcome} {i : Nat} {c : Int} {m : String}
    (h : src i = .err c m) (hc : c ≠ RATE_LIMIT_CODE) :
    fetch_logs_page src i = ⟨.error (c, m), [], i + 1⟩ := by
  simp [fetch_logs_page, MAX_RETRIES, fetch_logs_page_from, h, hc]

-- Stepping lemmas for the pagination loop --------------------------------------

/-- Pagination stops without decoding when the page fetch exhausted retries. -/
theorem collect_aux_stop_none {src : Nat → FetchOutcome} {dev : String}
    {fuel : Nat} {last prev : Option String} {acc : List LogRecord}
    {fetches i : Nat} (h : (fetch_logs_page src i).result = .ok none) :
    collect_device_logs_aux src dev (fuel + 1) last prev acc fetches i
      = ⟨acc, fetches + 1, (fetch_logs_page src i).next, none⟩ := by
  simp only [collect_device_logs_aux, h]

/-- Pagination re-raises a non-rate-limit API error. -/
theorem collect_aux_stop_err {src : Nat → FetchOutcome} {dev : String}
    {fuel : Nat} {last prev : Option String} {acc : List LogRecord}
    {fetches i : Nat} {e : Int × String}
    (h : (fetch_logs_page src i).result = .error e) :
    collect_device_logs_aux src dev (fuel + 1) last prev acc fetches i
      = ⟨acc, fetches + 1, (fetch_logs_page src i).next, some e⟩ := by
  simp only [collect_device_logs_aux, h]

/-- Pagination keeps the decoded entries of the final page when the source
reports no further page. -/
theorem collect_aux_stop_nonext {src : Nat → FetchOutcome} {dev : String}
    {fuel : Nat} {last prev : Option String} {acc : List LogRecord}
    {fetches i : Nat} {page : LogsPage}
    (h : (fetch_logs_page src i).result = .ok (some page))
    (hn : page.has_next = false) :
    collect_device_logs_aux src dev (fuel + 1) last prev acc fetches i
      = ⟨acc ++ page.logs.map (LogRecord.from_api dev), fetches + 1,
          (fetch_logs_page src i).next, none⟩ := by
  simp only [collect_device_logs_aux, h, hn, Bool.not_false, if_pos]

/-- Pagination stops after decoding when the returned cursor is empty or
repeats the prev_row_key value. -/
theorem collect_aux_stop_stall {src : Nat → FetchOutcome} {dev : String}
    {fuel : Nat} {last prev : Option String} {acc : List LogRecord}
    {fetches i : Nat} {page : LogsPage}
    (h : (fetch_logs_page src i).result = .ok (some page))
    (hn : page.has_next = true)
    (hs : page.next_row_key = "" ∨ some page.next_row_key = prev) :
    collect_device_logs_aux src dev (fuel + 1) last prev acc fetches i
      = ⟨acc ++ page.logs.map (LogRecord.from_api dev), fetches + 1,
          (fetch_logs_page src i).next, none⟩ := by
  simp only [collect_device_logs_aux, h, hn, Bool.not_true, Bool.false_eq_true,
    if_false]
  rw [if_pos hs]

/-- Pagination continues to the next page, shifting the cursor pair. -/
theorem collect_aux_step_cont {src : Nat → FetchOutcome} {dev : String}
    {fuel : Nat} {last prev : Option String} {acc : List LogRecord}
    {fetches i : Nat} {page : LogsPage}
    (h : (fetch_logs_page src i).result = .ok (some page))
    (hn : page.has_next = true)
    (hk : page.next_row_key ≠ "")
    (hp : some page.next_row_key ≠ prev) :
    collect_device_logs_aux src dev (fuel + 1) last prev acc fetches i
      = collect_device_logs_aux src dev fuel (some page.next_row_key) last
          (acc ++ page.logs.map (LogRecord.from_api dev)) (fetches + 1)
          (fetch_logs_page src i).next := by
  simp only [collect_device_logs_aux, h, hn, Bool.not_true, Bool.false_eq_true,
    if_false]
  rw [if_neg (by simp [hk, hp])]

-- Projection lemmas for _collect_one_device ------------------------------------

/-- When pagination raises, the device collection re-raises it, leaving
store, bookmarks and summary untouched. -/
theorem collect_one_device_raised {src : Nat → FetchOutcome}
    {cfg : CollectorConfig} {dev : String} {now : Int}
    {store : List LogRecord} {bm : List (String × Int)}
    {result : CollectionResult} {i : Nat} {e : Int × String}
    (h : (collect_device_logs src dev i).error = some e) :
    (collect_one_device src cfg dev now store bm result i).raised = some e
    ∧ (collect_one_device src cfg dev now store bm result i).store = store
    ∧ (collect_one_device src cfg dev now store bm result i).bm = bm
    ∧ (collect_one_device src cfg dev now store bm result i).result = result := by
  simp [collect_one_device, h]

/-- When pagination returns no records, only devices_collected advances. -/
theorem collect_one_device_empty {src : Nat → FetchOutcome}
    {cfg : CollectorConfig} {dev : String} {now : Int}
    {store : List LogRecord} {bm : List (String × Int)}
    {result : CollectionResult} {i : Nat}
    (h : (collect_device_logs src dev i).error = none)
    (hr : (collect_device_logs src dev i).records = []) :
    (collect_one_device src cfg dev now store bm result i).raised = none
    ∧ (collect_one_device src cfg dev now store bm result i).store = store
    ∧ (collect_one_device src cfg dev now store bm result i).bm = bm
    ∧ (collect_one_device src cfg dev now store bm result i).result
        = { result with devices_collected := result.devices_collected + 1 } := by
  simp [collect_one_device, h, hr]

/-- When pagination returns records, they are inserted, the bookmark is set
to the maximum fetched event_time, and the inserted count is added to
logs_collected. -/
theorem collect_one_device_records {src : Nat → FetchOutcome}
    {cfg : CollectorConfig} {dev : String} {now : Int}
    {store : List LogRecord} {bm : List (String × Int)}
    {result : CollectionResult} {i : Nat}
    (h : (collect_device_logs src dev i).error = none)
    (hr : (collect_device_logs src dev i).records ≠ []) :
    (collect_one_device src cfg dev now store bm result i).raised = none
    ∧ (collect_one_device src cfg dev now store bm result i).store
        = (insert_logs store (collect_device_logs src dev i).records).1
    ∧ (collect_one_device src cfg dev now store bm result i).bm
        = set_device_bookmark bm dev (max_event_time (collect_device_logs src dev i).records)
    ∧ (collect_one_device src cfg dev now store bm result i).result
        = { result with
              logs_collected :=
                result.logs_collected + (insert_logs store (collect_device_logs src dev i).records).2
              devices_collected := result.devices_collected + 1 } := by
  simp only [collect_one_device, h]
  rw [if_neg hr]
  exact ⟨rfl, rfl, rfl, rfl⟩

-- Broadcaster lemmas ------------------------------------------------------------

/-- removeFirst is the identity when no element matches. -/
theorem removeFirst_of_none {α : Type} (p : α → Bool) :
    ∀ l : List α, (∀ x ∈ l, p x = false) → removeFirst p l = l := by
  intro l
  induction l with
  | nil => intro _; rfl
  | cons x xs ih =>
    intro h
    simp only [removeFirst, h x (List.mem_cons_self x xs), Bool.false_eq_true, if_false]
    rw [ih fun y hy => h y (List.mem_cons_of_mem x hy)]

/-- Unsubscribing an id that is not registered leaves the registry unchanged. -/
theorem unsubscribe_not_mem (subs : List SubQueue) (q : Nat)
    (h : q ∉ subs.map SubQueue.qid) : unsubscribe subs q = subs := by
  apply removeFirst_of_none
  intro x hx
  simp only [beq_eq_false_iff_ne, ne_eq]
  intro he
  exact h (he ▸ List.mem_map_of_mem SubQueue.qid hx)

/-- Folding unsubscriptions whose ids all differ from the head leaves the
head in place. -/
theorem foldl_unsub_skip (a : SubQueue) :
    ∀ (ds l : List SubQueue), (∀ q ∈ ds, q.qid ≠ a.qid) →
      ds.foldl (fun acc q => unsubscribe acc q.qid) (a :: l)
        = a :: ds.foldl (fun acc q => unsubscribe acc q.qid) l := by
  intro ds
  induction ds with
  | nil => intro l _; rfl
  | cons d rest ih =>
    intro l h
    have hd : d.qid ≠ a.qid := h d (List.mem_cons_self d rest)
    have hstep : unsubscribe (a :: l) d.qid = a :: unsubscribe l d.qid := by
      simp only [unsubscribe, removeFirst]
      rw [if_neg]
      simp only [beq_iff_eq]
      exact fun he => hd he.symm
    simp only [List.foldl_cons, hstep]
    exact ih (unsubscribe l d.qid) fun q hq => h q (List.mem_cons_of_mem d hq)

-- Pagination fetch-count bound --------------------------------------------------

/-- The pagination loop performs at most fuel further page fetches. -/
theorem collect_aux_fetches_le (src : Nat → FetchOutcome) (dev : String) :
    ∀ (fuel : Nat) (last prev : Option String) (acc : List LogRecord) (fetches i : Nat),
      (collect_device_logs_aux src dev fuel last prev acc fetches i).fetches
        ≤ fetches + fuel := by
  intro fuel
  induction fuel with
  | zero => intro last prev acc fetches i; simp [collect_device_logs_aux]
  | succ n ih =>
    intro last prev acc fetches i
    cases hres : (fetch_logs_page src i).result with
    | error e => rw [collect_aux_stop_err hres]; dsimp; omega
    | ok op =>
      cases op with
      | none => rw [collect_aux_stop_none hres]; dsimp; omega
      | some page =>
        by_cases hn : page.has_next = true
        · by_cases hk : page.next_row_key = ""
          · rw [collect_aux_stop_stall hres hn (Or.inl hk)]; dsimp; omega
          · by_cases hp : some page.next_row_key = prev
            · rw [collect_aux_stop_stall hres hn (Or.inr hp)]; dsimp; omega
            · rw [collect_aux_step_cont hres hn hk hp]
              have := ih (some page.next_row_key) last
                (acc ++ page.logs.map (LogRecord.from_api dev)) (fetches + 1)
                (fetch_logs_page src i).next
              omega
        · rw [collect_aux_stop_nonext hres (Bool.not_eq_true _ ▸ hn)]; dsimp; omega

/-- A full device collection never fetches more than the page ceiling. -/
theorem collect_fetches_le (src : Nat → FetchOutcome) (dev : String) (i : Nat) :
    (collect_device_logs src dev i).fetches ≤ MAX_PAGES_PER_DEVICE := by
  have := collect_aux_fetches_le src dev MAX_PAGES_PER_DEVICE none none [] 0 i
  simpa [collect_device_logs] using this

/-- A source that always reports another page under the same non-empty cursor
is stopped by the stall guard on the third fetch: the repeat returned by the
second fetch is only compared against prev_row_key (the cursor of the fetch
before the previous one), so one further duplicate fetch happens before the
loop stops. -/
theorem repeating_cursor_three_fetches (dev : String) (ents : Nat → List ApiEntry)
    (k : String) (hk : k ≠ "") :
    (collect_device_logs (fun i => .ok ⟨ents i, true, k⟩) dev 0).fetches = 3 := by
  have hf : ∀ j, fetch_logs_page (fun i => FetchOutcome.ok ⟨ents i, true, k⟩) j
      = ⟨.ok (some ⟨ents j, true, k⟩), [], j + 1⟩ := fun j => fetch_ok rfl
  unfold collect_device_logs
  rw [show MAX_PAGES_PER_DEVICE = 99 + 1 from rfl]
  rw [collect_aux_step_cont
    ((by rw [hf 0]) : (fetch_logs_page (fun i => FetchOutcome.ok ⟨ents i, true, k⟩) 0).result
      = Except.ok (some ⟨ents 0, true, k⟩)) rfl hk (by simp)]
  rw [hf 0]
  rw [show (99 : Nat) = 98 + 1 from rfl]
  rw [collect_aux_step_cont
    ((by rw [hf 1]) : (fetch_logs_page (fun i => FetchOutcome.ok ⟨ents i, true, k⟩) 1).result
      = Except.ok (some ⟨ents 1, true, k⟩)) rfl hk (by simp)]
  rw [hf 1]
  rw [show (98 : Nat) = 97 + 1 from rfl]
  rw [collect_aux_stop_stall
    ((by rw [hf 2]) : (fetch_logs_page (fun i => FetchOutcome.ok ⟨ents i, true, k⟩) 2).result
      = Except.ok (some ⟨ents 2, true, k⟩)) rfl (Or.inr rfl)]

-- Stepping lemmas for the device loop of collect_all ---------------------------

/-- A device whose pagination raises is recorded as failed with a labeled
error string; store and bookmarks are untouched and the loop continues. -/
theorem collect_all_aux_cons_err {cfg : CollectorConfig} {now : Int}
    {rest : List DeviceSpec} {store : List LogRecord} {bm : List (String × Int)}
    {result : CollectionResult} {c : Int} {m : String} (d : DeviceSpec)
    (hid : d.id ≠ "") (he : (collect_device_logs d.src d.id 0).error = some (c, m)) :
    collect_all_aux cfg now (d :: rest) store bm result
      = collect_all_aux cfg now rest store bm
          { result with
              devices_failed := result.devices_failed + 1
              errors := result.errors ++ [device_display_name d ++ " (" ++ d.id ++ "): "
                ++ tuya_error_message c m] } := by
  simp only [collect_all_aux]
  rw [if_neg hid]
  simp only [(@collect_one_device_raised d.src cfg d.id now store bm result 0 (c, m) he).1]

/-- A device whose pagination returns no records only advances
devices_collected. -/
theorem collect_all_aux_cons_empty {cfg : CollectorConfig} {now : Int}
    {rest : List DeviceSpec} {store : List LogRecord} {bm : List (String × Int)}
    {result : CollectionResult} (d : DeviceSpec)
    (hid : d.id ≠ "") (he : (collect_device_logs d.src d.id 0).error = none)
    (hr : (collect_device_logs d.src d.id 0).records = []) :
    collect_all_aux cfg now (d :: rest) store bm result
      = collect_all_aux cfg now rest store bm
          { result with devices_collected := result.devices_collected + 1 } := by
  have H := @collect_one_device_empty d.src cfg d.id now store bm result 0 he hr
  simp only [collect_all_aux]
  rw [if_neg hid]
  simp only [H.1]
  rw [H.2.1, H.2.2.1, H.2.2.2]

/-- A device whose pagination returns records inserts them, bookmarks the
maximum fetched event_time and counts the newly inserted records. -/
theorem collect_all_aux_cons_records {cfg : CollectorConfig} {now : Int}
    {rest : List DeviceSpec} {store : List LogRecord} {bm : List (String × Int)}
    {result : CollectionResult} (d : DeviceSpec)
    (hid : d.id ≠ "") (he : (collect_device_logs d.src d.id 0).error = none)
    (hr : (collect_device_logs d.src d.id 0).records ≠ []) :
    collect_all_aux cfg now (d :: rest) store bm result
      = collect_all_aux cfg now rest
          (insert_logs store (collect_device_logs d.src d.id 0).records).1
          (set_device_bookmark bm d.id
            (max_event_time (collect_device_logs d.src d.id 0).records))
          { result with
              logs_collected := result.logs_collected
                + (insert_logs store (collect_device_logs d.src d.id 0).records).2
              devices_collected := result.devices_collected + 1 } := by
  have H := @collect_one_device_records d.src cfg d.id now store bm result 0 he hr
  simp only [collect_all_aux]
  rw [if_neg hid]
  simp only [H.1]
  rw [H.2.1, H.2.2.1, H.2.2.2]

/-- With distinct queue ids, one fan-out round keeps exactly the queues that
had free capacity, each with the payload appended, and removes the full
ones. -/
theorem fan_out_characterization (e : TuyaEvent) :
    ∀ subs : List SubQueue, (subs.map SubQueue.qid).Nodup →
      fan_out subs e
        = (subs.filter fun q => decide (q.items.length < q.maxsize)).map
            fun q => { q with items := q.items ++ [event_payload e] } := by
  intro subs
  induction subs with
  | nil => intro _; rfl
  | cons x rest ih =>
    intro h
    simp only [List.map_cons, List.nodup_cons] at h
    obtain ⟨hx, hrest⟩ := h
    have htail :
        (rest.filter fun q => !(decide (q.items.length < q.maxsize))).foldl
            (fun acc q => unsubscribe acc q.qid)
            (rest.map fun q =>
              if q.items.length < q.maxsize then
                { q with items := q.items ++ [event_payload e] }
              else q)
          = (rest.filter fun q => decide (q.items.length < q.maxsize)).map
              fun q => { q with items := q.items ++ [event_payload e] } := by
      simpa [fan_out] using ih hrest
    by_cases hfree : x.items.length < x.maxsize
    · simp only [fan_out, List.map_cons, List.filter_cons, hfree, decide_eq_true_eq,
        if_pos, Bool.not_true]
      rw [if_neg (by simp [hfree])]
      rw [foldl_unsub_skip _ _ _ ?hids]
      case hids =>
        intro q hq
        have hqr : q ∈ rest := List.mem_of_mem_filter hq
        intro he
        exact hx (he ▸ List.mem_map_of_mem SubQueue.qid hqr)
      rw [htail]
    · simp only [fan_out, List.map_cons, List.filter_cons]
      rw [if_neg hfree]
      rw [if_pos (by simp [hfree])]
      simp only [List.foldl_cons]
      have hhead : unsubscribe
          (x :: rest.map fun q =>
            if q.items.length < q.maxsize then
              { q with items := q.items ++ [event_payload e] }
            else q) x.qid
          = rest.map fun q =>
              if q.items.length < q.maxsize then
                { q with items := q.items ++ [event_payload e] }
              else q := by
        simp [unsubscribe, removeFirst]
      rw [hhead, htail]
      simp [hfree]

/-- In a list whose images under f are distinct, at most one element maps to
any given value. -/
theorem length_filter_le_one_of_nodup_map {α β : Type} [DecidableEq β]
    (f : α → β) (k : β) :
    ∀ l : List α, (l.map f).Nodup →
      (l.filter (fun x => decide (f x = k))).length ≤ 1 := by
  intro l
  induction l with
  | nil => intro _; simp
  | cons a rest ih =>
    intro h
    simp only [List.map_cons, List.nodup_cons] at h
    obtain ⟨ha, hrest⟩ := h
    by_cases he : f a = k
    · have hnil : rest.filter (fun x => decide (f x = k)) = [] := by
        apply List.filter_eq_nil_iff.mpr
        intro x hx
        simp only [decide_eq_true_eq]
        intro hxk
        exact ha (by rw [he, ← hxk]; exact List.mem_map_of_mem f hx)
      simp [List.filter_cons, he, hnil]
    · simp only [List.filter_cons, he]
      simpa using ih hrest

-- Claim theorems ----------------------------------------------------------------

/-- C1: LogStorage.insert_logs returns exactly the number of newly stored
records under uniqueness of (device_id, event_id, event_time): the empty
batch returns 0; the returned count always equals the growth of the store;
for a batch with pairwise distinct tuples it is the size of the
non-duplicate subset; and inserting a record whose tuple is already stored
is a no-op with count 0 — the same single code path serves the batch and the
stream ingestion (the stream path calls insert_logs with a singleton
batch). -/
theorem insert_logs_new_count :
    (∀ s : List LogRecord, insert_logs s [] = (s, 0))
    ∧ (∀ s rs : List LogRecord,
        (insert_logs s rs).1.length = s.length + (insert_logs s rs).2)
    ∧ (∀ s rs : List LogRecord, (rs.map recKey).Nodup →
        (insert_logs s rs).2
          = (rs.filter fun r => decide (recKey r ∉ storedKeys s)).length)
    ∧ (∀ (s : List LogRecord) (r : LogRecord), recKey r ∈ storedKeys s →
        insert_logs s [r] = (s, 0)) :=
  ⟨insert_logs_nil, fun s rs => insert_logs_length rs s,
    fun s rs h => insert_logs_count_nodup rs s h,
    fun _ _ h => insert_logs_dup_noop h⟩

/-- Witness for C1 at concrete records: a two-record batch against a store
already holding the first record inserts exactly one, and re-inserting the
stored record alone is a no-op. -/
theorem insert_logs_new_count_witness :
    (([⟨"d", 1, 5, "", "", "", "", "r1"⟩, ⟨"d", 2, 6, "", "", "", "", "r2"⟩] :
        List LogRecord).map recKey).Nodup
    ∧ (insert_logs [⟨"d", 1, 5, "", "", "", "", "r1"⟩]
        [⟨"d", 1, 5, "", "", "", "", "r1"⟩, ⟨"d", 2, 6, "", "", "", "", "r2"⟩]).2
      = (([⟨"d", 1, 5, "", "", "", "", "r1"⟩, ⟨"d", 2, 6, "", "", "", "", "r2"⟩] :
          List LogRecord).filter
          fun r => decide (recKey r ∉ storedKeys [⟨"d", 1, 5, "", "", "", "", "r1"⟩])).length
    ∧ recKey (⟨"d", 1, 5, "", "", "", "", "r1"⟩ : LogRecord)
        ∈ storedKeys [⟨"d", 1, 5, "", "", "", "", "r1"⟩]
    ∧ insert_logs [⟨"d", 1, 5, "", "", "", "", "r1"⟩] [⟨"d", 1, 5, "", "", "", "", "r1"⟩]
        = ([⟨"d", 1, 5, "", "", "", "", "r1"⟩], 0) :=
  ⟨by decide, insert_logs_new_count.2.2.1 _ _ (by decide), by decide,
    insert_logs_new_count.2.2.2 _ _ (by decide)⟩

/-- C2: after a device collection pass whose pagination succeeded with a
non-empty fetched batch of which at least one record was newly inserted, the
bookmark of that device equals the maximum event_time among the fetched
records. -/
theorem collect_bookmark_max
    (src : Nat → FetchOutcome) (cfg : CollectorConfig) (dev : String)
    (now : Int) (store : List LogRecord) (bm : List (String × Int))
    (result : CollectionResult) (i : Nat)
    (herr : (collect_device_logs src dev i).error = none)
    (hne : (collect_device_logs src dev i).records ≠ [])
    (hins : 0 < (insert_logs store (collect_device_logs src dev i).records).2) :
    get_device_bookmark (collect_one_device src cfg dev now store bm result i).bm dev
      = some (max_event_time (collect_device_logs src dev i).records) := by
  rw [(collect_one_device_records herr hne).2.2.1, get_set_bookmark]

/-- Witness for C2: with no prior bookmark, a run fetching events with
event_time values 1000, 3000 and 2000 for device R leaves the bookmark of R
at 3000. -/
theorem collect_bookmark_max_witness :
    get_device_bookmark
      (collect_one_device
        (fun _ => .ok ⟨[⟨some 1, some 1000, none, none, none, none⟩,
                        ⟨some 2, some 3000, none, none, none, none⟩,
                        ⟨some 3, some 2000, none, none, none, none⟩], false, ""⟩)
        ⟨7⟩ "R" 1700000000000 [] [] {} 0).bm "R" = some 3000 := by
  exact (collect_bookmark_max
    (fun _ => .ok ⟨[⟨some 1, some 1000, none, none, none, none⟩,
                    ⟨some 2, some 3000, none, none, none, none⟩,
                    ⟨some 3, some 2000, none, none, none, none⟩], false, ""⟩)
    ⟨7⟩ "R" 1700000000000 [] [] {} 0
    (by decide) (by decide) (by decide)).trans (by decide)

/-- C3 counterexample: with a stored bookmark of 5000 for device R, a
collection pass fetching one fresh record with event_time 4500 — inside the
queried overlap window, whose lower bound is 4000 — rewrites the bookmark of
R down to 4500, so a bookmark update can decrease the stored value. -/
theorem bookmark_decrease_counterexample :
    get_device_bookmark [("R", 5000)] "R" = some 5000
    ∧ (collect_one_device
        (fun _ => .ok ⟨[⟨some 1, some 4500, none, none, none, none⟩], false, ""⟩)
        ⟨7⟩ "R" 1700000000000 [] [("R", 5000)] {} 0).window_start = 4000
    ∧ get_device_bookmark
        (collect_one_device
          (fun _ => .ok ⟨[⟨some 1, some 4500, none, none, none, none⟩], false, ""⟩)
          ⟨7⟩ "R" 1700000000000 [] [("R", 5000)] {} 0).bm "R" = some 4500 :=
  ⟨by decide, by decide, by decide⟩

/-- C3 amended: bookmark updates are unconditional overwrites rather than
monotone advances — the batch path sets the bookmark to the maximum
event_time of any non-empty fetched batch, the stream path sets it to the
timestamp of each newly inserted event, and set_device_bookmark upserts the
written value regardless of the previously stored one. -/
theorem bookmark_update_unconditional :
    (∀ (src : Nat → FetchOutcome) (cfg : CollectorConfig) (dev : String)
      (now : Int) (store : List LogRecord) (bm : List (String × Int))
      (result : CollectionResult) (i : Nat),
      (collect_device_logs src dev i).error = none →
      (collect_device_logs src dev i).records ≠ [] →
      (collect_one_device src cfg dev now store bm result i).bm
        = set_device_bookmark bm dev
            (max_event_time (collect_device_logs src dev i).records))
    ∧ (∀ (H : String → Nat) (st : WatcherState) (e : TuyaEvent),
        (insert_logs st.store [event_to_record H e]).2 ≠ 0 →
        (watcher_step H st e).bm = set_device_bookmark st.bm e.device_id e.timestamp)
    ∧ (∀ (bm : List (String × Int)) (dev : String) (t : Int),
        get_device_bookmark (set_device_bookmark bm dev t) dev = some t) := by
  refine ⟨?_, ?_, get_set_bookmark⟩
  · intro src cfg dev now store bm result i herr hne
    exact (collect_one_device_records herr hne).2.2.1
  · intro H st e h
    simp [watcher_step, h]

/-- Witness for C3 amended: the batch path writes the batch maximum 4500
over the stored 5000, the stream path writes a fresh event timestamp 100
over the stored 9000, and a set bookmark reads back as written. -/
theorem bookmark_update_unconditional_witness :
    (collect_one_device
        (fun _ => .ok ⟨[⟨some 1, some 4500, none, none, none, none⟩], false, ""⟩)
        ⟨7⟩ "R" 1700000000000 [] [("R", 5000)] {} 0).bm
      = set_device_bookmark [("R", 5000)] "R"
          (max_event_time (collect_device_logs
            (fun _ => .ok ⟨[⟨some 1, some 4500, none, none, none, none⟩], false, ""⟩)
            "R" 0).records)
    ∧ (watcher_step (fun _ => 0) ⟨[], [("R", 9000)], 0⟩
          ⟨"dp", "R", "p", Json.obj [], 100, Json.obj []⟩).bm
        = set_device_bookmark [("R", 9000)] "R" 100
    ∧ get_device_bookmark (set_device_bookmark [] "R" 42) "R" = some 42 :=
  ⟨bookmark_update_unconditional.1 _ _ _ _ _ _ _ _ (by decide) (by decide),
    bookmark_update_unconditional.2.1 _ _ _ (by decide),
    bookmark_update_unconditional.2.2 _ _ _⟩

/-- C4 counterexample: a device whose source rate-limits every call
exhausts the retry ceiling (backoff delays 10, 20, 40, then a None page),
yet the run summary records no failure for it: the device is counted as
collected, devices_failed stays 0 and the errors list stays empty — the
exhaustion is only logged, contradicting the claim that the failure is
recorded in the run summary. -/
theorem rate_limit_exhaustion_counterexample :
    fetch_logs_page (fun _ => .err RATE_LIMIT_CODE "rate limited") 0
      = ⟨.ok none, [10, 20, 40], 3⟩
    ∧ (collect_all ⟨7⟩ 1700000000000
        [⟨"dev1", "Light", none, fun _ => .err RATE_LIMIT_CODE "rate limited"⟩] [] []).2.2
      = { devices_found := 1, devices_collected := 1, devices_failed := 0,
          logs_collected := 0, errors := [] } :=
  ⟨rfl, rfl⟩

/-- C4 amended: a rate-limited page fetch retries with delay 10 * 2 ^
attempt — a source rate-limiting twice then succeeding is retried exactly
twice, with the strictly increasing delays 10 then 20, and succeeds;
exhausting the ceiling (delays 10, 20, 40) abandons only the remaining pages
of that resource and the run continues, but the exhaustion is not recorded
in the run summary: the resource still counts as collected, with no error
string and devices_failed unchanged. -/
theorem rate_limit_retry_behaviour :
    (∀ (src : Nat → FetchOutcome) (p : LogsPage) (m1 m2 : String),
      src 0 = .err RATE_LIMIT_CODE m1 → src 1 = .err RATE_LIMIT_CODE m2 →
      src 2 = .ok p →
      fetch_logs_page src 0 = ⟨.ok (some p), [10, 20], 3⟩)
    ∧ (∀ (src : Nat → FetchOutcome) (msgs : Nat → String),
        (∀ i, src i = .err RATE_LIMIT_CODE (msgs i)) →
        fetch_logs_page src 0 = ⟨.ok none, [10, 20, 40], 3⟩)
    ∧ (∀ (src : Nat → FetchOutcome) (msgs : Nat → String)
        (id name : String) (cn : Option String) (cfg : CollectorConfig)
        (now : Int) (store : List LogRecord) (bm : List (String × Int)),
        id ≠ "" →
        (∀ i, src i = .err RATE_LIMIT_CODE (msgs i)) →
        (collect_all cfg now [⟨id, name, cn, src⟩] store bm).2.2
          = { devices_found := 1, devices_collected := 1, devices_failed := 0,
              logs_collected := 0, errors := [] }) := by
  refine ⟨fun src p m1 m2 h0 h1 h2 => fetch_rl_rl_ok h0 h1 h2,
    fun src msgs h => fetch_all_rl h, ?_⟩
  intro src msgs id name cn cfg now store bm hid hrl
  have hfetch := fetch_all_rl hrl
  have hpages : collect_device_logs src id 0 = ⟨[], 1, 3, none⟩ := by
    unfold collect_device_logs
    rw [show MAX_PAGES_PER_DEVICE = 99 + 1 from rfl]
    rw [collect_aux_stop_none (by rw [hfetch])]
    rw [hfetch]
  simp only [collect_all, List.length_cons, List.length_nil, Nat.zero_add]
  rw [collect_all_aux_cons_empty ⟨id, name, cn, src⟩ hid (by rw [hpages]) (by rw [hpages])]
  simp [collect_all_aux]

/-- Witness for C4 amended: a concrete source rate-limited twice then
serving an empty final page is fetched with delays 10 and 20 and succeeds;
a concrete always-rate-limited source exhausts with delays 10, 20, 40; and
the run over one such device reports one collected device and no error. -/
theorem rate_limit_retry_behaviour_witness :
    fetch_logs_page
        (fun i => if i = 0 then .err RATE_LIMIT_CODE "r1"
          else if i = 1 then .err RATE_LIMIT_CODE "r2"
          else .ok ⟨[], false, ""⟩) 0
      = ⟨.ok (some ⟨[], false, ""⟩), [10, 20], 3⟩
    ∧ fetch_logs_page (fun _ => .err RATE_LIMIT_CODE "rl") 0
      = ⟨.ok none, [10, 20, 40], 3⟩
    ∧ (collect_all ⟨7⟩ 1700000000000
        [⟨"dev2", "Plug", none, fun _ => .err RATE_LIMIT_CODE "rl"⟩] [] []).2.2
      = { devices_found := 1, devices_collected := 1, devices_failed := 0,
          logs_collected := 0, errors := [] } :=
  ⟨rate_limit_retry_behaviour.1 _ ⟨[], false, ""⟩ "r1" "r2" rfl rfl rfl,
    rate_limit_retry_behaviour.2.1 _ (fun _ => "rl") (fun _ => rfl),
    rate_limit_retry_behaviour.2.2 _ (fun _ => "rl") "dev2" "Plug" none ⟨7⟩
      1700000000000 [] [] (by decide) (fun _ => rfl)⟩

/-- C5: a run over device A, whose pagination raises a TuyaAPIError, and
device B, whose pagination succeeds with a non-empty batch, is not aborted:
the summary counts one failed and one collected device, carries exactly the
labeled error string for A, and its logs_collected counts the records of B
that were newly inserted. -/
theorem partial_failure_isolation
    (cfg : CollectorConfig) (now : Int)
    (idA nameA idB nameB : String) (cnA cnB : Option String)
    (srcA srcB : Nat → FetchOutcome) (store : List LogRecord)
    (bm : List (String × Int)) (c : Int) (m : String)
    (hA : idA ≠ "") (hB : idB ≠ "")
    (herrA : (collect_device_logs srcA idA 0).error = some (c, m))
    (herrB : (collect_device_logs srcB idB 0).error = none)
    (hneB : (collect_device_logs srcB idB 0).records ≠ []) :
    (collect_all cfg now [⟨idA, nameA, cnA, srcA⟩, ⟨idB, nameB, cnB, srcB⟩] store bm).2.2
      = { devices_found := 2, devices_collected := 1, devices_failed := 1,
          logs_collected := (insert_logs store (collect_device_logs srcB idB 0).records).2,
          errors := [device_display_name ⟨idA, nameA, cnA, srcA⟩ ++ " (" ++ idA ++ "): "
            ++ tuya_error_message c m] } := by
  simp only [collect_all, List.length_cons, List.length_nil, Nat.zero_add]
  rw [collect_all_aux_cons_err ⟨idA, nameA, cnA, srcA⟩ hA herrA]
  rw [collect_all_aux_cons_records ⟨idB, nameB, cnB, srcB⟩ hB herrB hneB]
  simp [collect_all_aux]

/-- Witness for C5 at concrete sources: device A fails with error 1106,
device B contributes its one fresh record, and the summary shows one failed,
one collected, one labeled error and one collected log. -/
theorem partial_failure_isolation_witness :
    (collect_all ⟨7⟩ 1700000000000
        [⟨"devA", "A", none, fun _ => .err 1106 "permission denied"⟩,
         ⟨"devB", "B", none,
          fun _ => .ok ⟨[⟨some 1, some 1000, none, some "switch", some "true", none⟩],
            false, ""⟩⟩] [] []).2.2
      = { devices_found := 2, devices_collected := 1, devices_failed := 1,
          logs_collected := 1,
          errors := ["A (devA): Tuya API error 1106: permission denied"] } := by
  exact (partial_failure_isolation ⟨7⟩ 1700000000000 "devA" "A" "devB" "B" none none
    (fun _ => .err 1106 "permission denied")
    (fun _ => .ok ⟨[⟨some 1, some 1000, none, some "switch", some "true", none⟩], false, ""⟩)
    [] [] 1106 "permission denied"
    (by decide) (by decide) (by decide) (by decide) (by decide)).trans (by decide)

/-- C6 counterexample: a source whose first response already carries the
cursor k and whose second response repeats the same cursor does not stop
after the second page: a third page is fetched and decoded before the stall
guard fires, because the guard compares the returned cursor against
prev_row_key, the cursor used in the fetch before the previous one. -/
theorem pagination_stall_counterexample :
    (collect_device_logs
        (fun _ => .ok ⟨[⟨some 1, some 100, none, none, none, none⟩], true, "k"⟩)
        "dev1" 0).fetches = 3
    ∧ (collect_device_logs
        (fun _ => .ok ⟨[⟨some 1, some 100, none, none, none, none⟩], true, "k"⟩)
        "dev1" 0).records.length = 3 :=
  ⟨rfl, rfl⟩

/-- C6 amended: pagination stops when the source reports no further page,
when the returned cursor is empty, when the returned cursor equals
prev_row_key (the cursor used two fetches earlier — so a source repeating
the same non-empty cursor from its first response onward is stopped after
exactly three fetches, one later than the repeat), or at the page ceiling;
no device collection ever fetches more than MAX_PAGES_PER_DEVICE pages. -/
theorem pagination_termination :
    (∀ (src : Nat → FetchOutcome) (dev : String) (i : Nat),
      (collect_device_logs src dev i).fetches ≤ MAX_PAGES_PER_DEVICE)
    ∧ (∀ (dev : String) (ents : Nat → List ApiEntry) (k : String), k ≠ "" →
        (collect_device_logs (fun i => .ok ⟨ents i, true, k⟩) dev 0).fetches = 3) :=
  ⟨collect_fetches_le, repeating_cursor_three_fetches⟩

/-- Witness for C6 amended: the fetch-count bound at a concrete source and
the three-fetch stop of a concrete repeating-cursor source. -/
theorem pagination_termination_witness :
    (collect_device_logs (fun _ => .ok ⟨[], false, ""⟩) "dev1" 0).fetches
      ≤ MAX_PAGES_PER_DEVICE
    ∧ (collect_device_logs (fun _ => .ok ⟨[], true, "k"⟩) "dev1" 0).fetches = 3 :=
  ⟨pagination_termination.1 _ "dev1" 0,
    pagination_termination.2 "dev1" (fun _ => []) "k" (by decide)⟩

/-- C7 amended: the derived event key is a deterministic function of
(device_id, timestamp, event_type, canonicalized data) — messages identical
in those four fields yield the same event_id for every hash over the
identity payload, hence for the SHA-256 truncation used by the source;
distinctness for differing messages does not hold in general. -/
theorem event_key_determinism (H : String → Nat) (e1 e2 : TuyaEvent)
    (hdev : e1.device_id = e2.device_id) (hts : e1.timestamp = e2.timestamp)
    (hty : e1.event_type = e2.event_type) (hdata : e1.data = e2.data) :
    (event_to_record H e1).event_id = (event_to_record H e2).event_id := by
  simp [event_to_record, id_payload, hdev, hts, hty, hdata]

/-- Witness for C7: two messages identical in the four key fields but
differing in product_id and raw payload share the derived key. -/
theorem event_key_determinism_witness :
    (event_to_record String.length
        ⟨"dp_report", "dev1", "p1", Json.obj [], 1700, Json.obj []⟩).event_id
      = (event_to_record String.length
        ⟨"dp_report", "dev1", "p2", Json.obj [], 1700, Json.null⟩).event_id :=
  event_key_determinism String.length _ _ rfl rfl rfl rfl

/-- C7 counterexample: two messages that differ in device_id (and in
timestamp and event_type) yet build the identical colon-joined identity
payload — the join is unescaped, so device a:1 / time 2 / type t collides
with device a / time 1 / type 2:t — and therefore the identical derived key
under any hash of the payload, exhibited with a concrete one. -/
theorem event_key_collision_counterexample :
    (⟨"t", "a:1", "p", Json.obj [], 2, Json.null⟩ : TuyaEvent).device_id
      ≠ (⟨"2:t", "a", "p", Json.obj [], 1, Json.null⟩ : TuyaEvent).device_id
    ∧ id_payload ⟨"t", "a:1", "p", Json.obj [], 2, Json.null⟩
      = id_payload ⟨"2:t", "a", "p", Json.obj [], 1, Json.null⟩
    ∧ (event_to_record String.length
        ⟨"t", "a:1", "p", Json.obj [], 2, Json.null⟩).event_id
      = (event_to_record String.length
        ⟨"2:t", "a", "p", Json.obj [], 1, Json.null⟩).event_id :=
  ⟨by decide, by decide, by decide⟩

/-- C8: for every registry state (with the distinct queue identities that
asyncio object identity guarantees), one fan-out round appends the
serialized payload to every registered queue with free capacity and leaves
the registry holding exactly those queues — every full queue has the message
dropped and is removed — and unsubscribing a queue id that is no longer
registered is a no-op.  The model functions are total: no push blocks or
raises. -/
theorem fan_out_policy :
    (∀ (e : TuyaEvent) (subs : List SubQueue), (subs.map SubQueue.qid).Nodup →
      fan_out subs e
        = (subs.filter fun q => decide (q.items.length < q.maxsize)).map
            fun q => { q with items := q.items ++ [event_payload e] })
    ∧ (∀ (subs : List SubQueue) (q : Nat), q ∉ subs.map SubQueue.qid →
        unsubscribe subs q = subs) :=
  ⟨fun e subs h => fan_out_characterization e subs h, unsubscribe_not_mem⟩

/-- Witness for C8: queue 1 has room and receives the payload; queue 2 is
full, misses the message and is dropped from the registry; unsubscribing the
absent id 2 again changes nothing. -/
theorem fan_out_policy_witness :
    fan_out [⟨1, [], 256⟩, ⟨2, [⟨"t", "d", "p", Json.null, 1⟩], 1⟩]
        ⟨"dp", "dev", "prod", Json.null, 5, Json.null⟩
      = [⟨1, [⟨"dp", "dev", "prod", Json.null, 5⟩], 256⟩]
    ∧ unsubscribe [⟨1, [⟨"dp", "dev", "prod", Json.null, 5⟩], 256⟩] 2
      = [⟨1, [⟨"dp", "dev", "prod", Json.null, 5⟩], 256⟩] :=
  ⟨(fan_out_policy.1 _ _ (by decide)).trans rfl,
    fan_out_policy.2 _ _ (by decide)⟩

/-- C9: evaluation of the subscribe loop of events.py on malformed frames.
A first frame that fails json.loads crashes the loop with NameError — the
except handler reads the still-unbound msg — acknowledging nothing, instead
of skipping and acknowledging the frame; a later such frame acknowledges the
messageId of the previous frame a second time rather than the malformed
frame.  By contrast, a frame that parses to a dict whose payload cannot be
decoded is skipped and acknowledged once, as the claim describes. -/
theorem decode_error_crashes_loop :
    subscribe_loop [.badJson] none
      = { acks := [], events := [], crash := some .nameError }
    ∧ subscribe_loop [.dictMsg "m1" none, .badJson] none
      = { acks := ["m1", "m1"], events := [], crash := none }
    ∧ subscribe_loop [.dictMsg "m1" none] none
      = { acks := ["m1"], events := [], crash := none } :=
  ⟨rfl, rfl, rfl⟩

/-- C10: LogRecord.from_api defaults missing event_id and event_time to 0,
so for a fixed device every API entry lacking both fields has the identity
tuple (device, 0, 0); once one such record is stored, inserting any later
such record is silently dropped as a duplicate even when its payload
differs, and a store whose tuples are distinct never holds more than one
such row. -/
theorem from_api_missing_fields_dedup
    (dev : String) (e1 e2 : ApiEntry) (s rs : List LogRecord)
    (h1i : e1.event_id = none) (h1t : e1.event_time = none)
    (h2i : e2.event_id = none) (h2t : e2.event_time = none) :
    recKey (LogRecord.from_api dev e1) = (dev, 0, 0)
    ∧ recKey (LogRecord.from_api dev e2) = (dev, 0, 0)
    ∧ insert_logs (insert_logs s [LogRecord.from_api dev e1]).1 [LogRecord.from_api dev e2]
        = ((insert_logs s [LogRecord.from_api dev e1]).1, 0)
    ∧ ((storedKeys s).Nodup →
        ((insert_logs s rs).1.filter fun r => decide (recKey r = (dev, 0, 0))).length ≤ 1) := by
  have hk1 : recKey (LogRecord.from_api dev e1) = (dev, 0, 0) := by
    simp [recKey, LogRecord.from_api, h1i, h1t]
  have hk2 : recKey (LogRecord.from_api dev e2) = (dev, 0, 0) := by
    simp [recKey, LogRecord.from_api, h2i, h2t]
  refine ⟨hk1, hk2, ?_, ?_⟩
  · apply insert_logs_dup_noop
    rw [hk2, ← hk1]
    exact insert_logs_key_present s _
  · intro hnd
    have hnodup := insert_logs_keys_nodup rs s hnd
    simpa [storedKeys] using
      length_filter_le_one_of_nodup_map recKey (dev, 0, 0) (insert_logs s rs).1
        (by simpa [storedKeys] using hnodup)

/-- Witness for C10: two entries that lack event_id and event_time but carry
different payload fields map to the same tuple (d, 0, 0); after storing the
first, the second is dropped, and the store holds at most one such row. -/
theorem from_api_missing_fields_dedup_witness :
    recKey (LogRecord.from_api "d" ⟨none, none, none, some "switch", some "true", none⟩)
      = ("d", 0, 0)
    ∧ recKey (LogRecord.from_api "d" ⟨none, none, none, some "temp", some "7", none⟩)
      = ("d", 0, 0)
    ∧ insert_logs
        (insert_logs [] [LogRecord.from_api "d" ⟨none, none, none, some "switch", some "true", none⟩]).1
        [LogRecord.from_api "d" ⟨none, none, none, some "temp", some "7", none⟩]
      = ((insert_logs [] [LogRecord.from_api "d" ⟨none, none, none, some "switch", some "true", none⟩]).1, 0)
    ∧ ((insert_logs []
          [LogRecord.from_api "d" ⟨none, none, none, some "switch", some "true", none⟩,
           LogRecord.from_api "d" ⟨none, none, none, some "temp", some "7", none⟩]).1.filter
          fun r => decide (recKey r = ("d", 0, 0))).length ≤ 1 := by
  have h := from_api_missing_fields_dedup "d"
    ⟨none, none, none, some "switch", some "true", none⟩
    ⟨none, none, none, some "temp", some "7", none⟩ []
    [LogRecord.from_api "d" ⟨none, none, none, some "switch", some "true", none⟩,
     LogRecord.from_api "d" ⟨none, none, none, some "temp", some "7", none⟩]
    rfl rfl rfl rfl
  exact ⟨h.1, h.2.1, h.2.2.1, h.2.2.2 (by decide)⟩

end TuyaAgent
